import Mathlib

/-!
Shallow embedding of the LinkedIn/WhatsApp bot in `main.py` (repository
soggo/LinkedinChat) and verification of the claims of its specification.

The module-level dictionaries `user_conversations`, `pending_posts`,
`user_tokens`, `user_states` are only ever indexed at the incoming
`phone_number`, so they are embedded projected at a single identity; the
`oauth_states` dictionary is kept whole (its keys are state hashes).
Network calls and environment reads are passed in explicitly through an
`Oracles` record, and user-visible sends plus outbound collaborator calls are
returned as an ordered `Effect` trace.
-/

namespace LinkedinChat

/-- Chat turn as stored in `user_conversations`: a dict with keys
`role` and `content`. -/
structure ChatMsg where
  role : String
  content : String
deriving DecidableEq, Repr

/-- Entry of `user_tokens`: the three keys `access_token`, `expires_at`,
`linkedin_id_sub` are always written together (the `code:` branch of
`handle_message` is the only writer). -/
structure TokenData where
  access_token : String
  expires_at : Nat
  linkedin_id_sub : String
deriving DecidableEq, Repr

/-- Button dict `\x7b"id": .., "title": ..\x7d` passed to
`send_whatsapp_interactive_buttons`. -/
structure WButton where
  id : String
  title : String
deriving DecidableEq, Repr

/-- Wrapped button object `\x7b"type": "reply", "reply": button\x7d` built
inside `send_whatsapp_interactive_buttons`. -/
structure ButtonObject where
  type : String
  reply : WButton
deriving DecidableEq, Repr

/-- Payload of one WhatsApp interactive-message API request: the body text and
the wrapped button objects placed in `action.buttons`. -/
structure InteractiveCall where
  bodyText : String
  buttons : List ButtonObject
deriving DecidableEq, Repr

/-- Observable effects of a handler, in emission order: user-visible sends
(`send_whatsapp_message` / `send_whatsapp_interactive_buttons`) and the
outbound collaborator calls the claims talk about (`client.messages.create`,
the token-endpoint POST in `get_access_token`, the ugcPosts POST in
`post_to_linkedin`). -/
inductive Effect where
  | sendText (text : String)
  | sendButtons (text : String) (buttons : List WButton)
  | callGenerate (messages : List ChatMsg)
  | callExchange (code : String)
  | callPublish (content : String)
deriving DecidableEq, Repr

/-- The five module-level dicts of `main.py`, projected at one phone number
(except `oauth_states`, kept whole).  A missing dict entry and its falsy
default collapse to `none` / `[]`, exactly how the code reads them
(`user_states.get`, membership tests, emptiness tests treat them alike). -/
structure SState where
  user_conversation : List ChatMsg
  pending_post : Option String
  user_token : Option TokenData
  user_state : Option String
  oauth_states : List (String × String)
deriving DecidableEq, Repr

/-- Token-endpoint JSON from `get_access_token`: the `access_token` key may be
absent, `expires_in` may be absent (the code defaults it to 3600). -/
structure TokenResp where
  access_token : Option String
  expires_in : Option Nat
deriving DecidableEq, Repr

/-- Outcomes of the external collaborators and environment reads, passed in
explicitly: `clientOk` models a configured Anthropic client; `gen` the result
of `client.messages.create` (`none` = raised exception); `exchange` the JSON
returned by `get_access_token` (`none` = request failure); `userid` the result
of `get_linkedin_user_id`; `now` the value of `time.time()`; `publishNet` the
HTTP status of the ugcPosts request (`none` = raised exception) with
`publishBody` its response text; `state_hash` the sha256 state token minted in
`get_oauth_url` (the hash itself is not interpreted); `linkedin_client_id` the
`LINKEDIN_CLIENT_ID` environment variable (`none` or empty = falsy). -/
structure Oracles where
  clientOk : Bool
  gen : Option String
  exchange : Option TokenResp
  userid : Option String
  now : Nat
  publishNet : Option Nat
  publishBody : String
  state_hash : String
  linkedin_client_id : Option String

/-- Python str.lower, character-wise (ASCII case mapping; the commands and
codes the handlers compare against are ASCII). -/
def pyLower (s : String) : String := String.mk (s.data.map Char.toLower)

/-- Python str.strip: drop whitespace from both ends. -/
def pyStrip (s : String) : String :=
  String.mk (((s.data.dropWhile Char.isWhitespace).reverse.dropWhile Char.isWhitespace).reverse)

/-- Python str.startswith. -/
def pyStartsWith (s pre : String) : Bool := pre.data.isPrefixOf s.data

/-- Left-to-right replacement of every non-overlapping occurrence of `pat`
(non-empty) by `repl`, with fuel for structural recursion; each step consumes
at least one character, so `length` fuel suffices. -/
def replaceFuel (pat repl : List Char) : Nat → List Char → List Char
  | 0, l => l
  | _ + 1, [] => []
  | n + 1, c :: cs =>
    if pat ≠ [] ∧ pat.isPrefixOf (c :: cs) then
      repl ++ replaceFuel pat repl n ((c :: cs).drop pat.length)
    else
      c :: replaceFuel pat repl n cs

/-- Python str.replace (for a non-empty pattern). -/
def pyReplace (s pat repl : String) : String :=
  String.mk (replaceFuel pat.data repl.data s.data.length s.data)

/-- Python slicing s[:n]: the first n code points. -/
def pyTake (n : Nat) (s : String) : String := String.mk (s.data.take n)

/-- Python dict assignment `m[k] = v` on an association list: replace the
binding if the key is present, otherwise append it. -/
def dictSet (m : List (String × String)) (k v : String) : List (String × String) :=
  if m.any (fun kv => kv.1 == k) then
    m.map (fun kv => if kv.1 == k then (k, v) else kv)
  else
    m ++ [(k, v)]

/-- Characters `urllib.parse.quote` leaves unencoded with the default
`safe` argument: ALPHA, DIGIT, underscore, dot, hyphen, tilde, slash. -/
def quoteSafe (n : Nat) : Bool :=
  decide ((65 ≤ n ∧ n ≤ 90) ∨ (97 ≤ n ∧ n ≤ 122) ∨ (48 ≤ n ∧ n ≤ 57) ∨
    n = 95 ∨ n = 46 ∨ n = 45 ∨ n = 126 ∨ n = 47)

/-- Hex digit (uppercase) for percent-encoding. -/
def hexChar (n : Nat) : Char :=
  if n < 10 then Char.ofNat (48 + n) else Char.ofNat (55 + n)

/-- Percent-encoding of a single byte. -/
def percentEncode (b : UInt8) : String :=
  String.mk ['%', hexChar (b.toNat / 16), hexChar (b.toNat % 16)]

/-- urllib.parse.quote over the UTF-8 bytes of the string. -/
def pyQuote (s : String) : String :=
  String.join (s.toUTF8.toList.map (fun b =>
    if quoteSafe b.toNat then String.mk [Char.ofNat b.toNat] else percentEncode b))

/-- Default of the `APP_BASE_URL` environment variable in `main.py`. -/
def APP_BASE_URL : String := "https://linkedinchat.onrender.com/callback"

/-- get_oauth_url from main.py: stores `state_hash -> phone_number` in
`oauth_states` and returns the authorization URL embedding the hash.  The
sha256 hash itself is taken as an opaque input. -/
def get_oauth_url (cid phone state_hash : String)
    (states : List (String × String)) : List (String × String) × String :=
  let redirect_uri := APP_BASE_URL ++ "/callback"
  let states1 := dictSet states state_hash phone
  let auth_params : List (String × String) :=
    [("response_type", "code"), ("client_id", cid), ("redirect_uri", redirect_uri),
     ("state", state_hash), ("scope", "openid profile w_member_social")]
  let params_str := String.intercalate "&"
    (auth_params.map (fun kv => kv.1 ++ "=" ++ pyQuote kv.2))
  (states1, "https://www.linkedin.com/oauth/v2/authorization?" ++ params_str)

/-- Rendered outcome of the `/callback` endpoint: either the success page that
displays the authorization code, or the failure page with a reason. -/
inductive CallbackPage where
  | success (code : String)
  | failure (reason : String)
deriving DecidableEq, Repr

/-- oauth_callback from main.py (the `/callback` route): reads the `code`,
`error_description` and `state` query parameters.  The state-validation block
in the source is commented out, so `state_from_linkedin` is read but never
used and `oauth_states` is never consulted or modified. -/
def oauth_callback (code error_description state_from_linkedin : Option String)
    (st : SState) : SState × CallbackPage :=
  let _ := state_from_linkedin
  let c := code.getD ""
  if c = "" then
    (st, CallbackPage.failure
      (error_description.getD "No authorization code was provided by LinkedIn."))
  else
    (st, CallbackPage.success c)

/-- Maximum number of buttons of a WhatsApp interactive message of type
`button` (stated in the comments of `generate_post`). -/
def providerMaxButtons : Nat := 3

/-- send_whatsapp_interactive_buttons from main.py: wraps every button as
`\x7b"type": "reply", "reply": button\x7d` and issues exactly ONE API request
carrying the whole list (the function performs no splitting). -/
def send_whatsapp_interactive_buttons (message_text : String)
    (buttons : List WButton) : List InteractiveCall :=
  let button_objects := buttons.map (fun b => ButtonObject.mk "reply" b)
  [InteractiveCall.mk message_text button_objects]

/-- Provider API requests produced by dispatching an effect trace: each
`sendButtons` effect goes through `send_whatsapp_interactive_buttons`. -/
def providerCalls (effs : List Effect) : List InteractiveCall :=
  (effs.map (fun e => match e with
    | Effect.sendButtons t bs => send_whatsapp_interactive_buttons t bs
    | _ => [])).flatten

/-- Option lists carried by the `sendButtons` effects of a trace, in order. -/
def buttonLists (effs : List Effect) : List (List WButton) :=
  effs.filterMap (fun e => match e with
    | Effect.sendButtons _ bs => some bs
    | _ => none)

/-- Buttons offered after a generated post (`generate_post`). -/
def approveBtn : WButton := WButton.mk "approve" "‚úÖ Approve & Post"

/-- Cancel button of the edited-draft choice (id `cancel`). -/
def cancelBtn : WButton := WButton.mk "cancel" "‚ùå Cancel"

/-- Regenerate button (id `regenerate_btn`). -/
def regenerateBtn : WButton := WButton.mk "regenerate_btn" "üîÑ Regenerate"

/-- Edit button (id `edit_btn`). -/
def editBtn : WButton := WButton.mk "edit_btn" "‚úèÔ∏è Edit"

/-- Cancel button of the post-generation choice (id `cancel_btn`). -/
def cancelBtn2 : WButton := WButton.mk "cancel_btn" "‚ùå Cancel"

/-- The four post-action buttons built in `generate_post`. -/
def postButtons : List WButton := [approveBtn, regenerateBtn, editBtn, cancelBtn2]

/-- Message texts of main.py (apostrophes written as \x27). -/
def welcomeMsg : String := "üëã Welcome to the LinkedIn Post Generator!\n\nI\x27ll help you create professional LinkedIn posts. Just send me:\n- Your post idea or topic\n- Any specific points\n- Target audience (optional)\n\nCommands:\n- \"auth\": Connect your LinkedIn account\n- \"help\": Show this message\n- \"cancel\": Cancel current operation\n\nTo get started, send \"auth\" or your post idea!"

/-- Reply of the `auth` command when LINKEDIN_CLIENT_ID is unset. -/
def linkedinNotConfiguredMsg : String := "LinkedIn integration is not configured on the server."

/-- Reply of the `auth` command: the authorization link message. -/
def authLinkMsg (url : String) : String :=
  "üîó To connect your LinkedIn account, please click this link:\n" ++ url ++
  "\n\nAfter authorizing, LinkedIn will redirect you. Copy the \x27code\x27 parameter value from the URL in your browser\x27s address bar.\nThen send it to me like this:\ncode:YOUR_CODE_HERE"

/-- Reply when the `code:` prefix carries no code. -/
def missingCodeMsg : String := "It seems the code is missing. Please send it like: code:YOUR_CODE_HERE"

/-- Progress message of the `code:` branch. -/
def authenticatingMsg : String := "üîÑ Authenticating with LinkedIn using your code..."

/-- Success message of the `code:` branch. -/
def connectedMsg : String := "‚úÖ Successfully connected to your LinkedIn account!"

/-- Partial-success message when the userinfo call fails. -/
def partialAuthMsg : String := "‚úÖ Authentication successful, but couldn\x27t retrieve your LinkedIn User ID (sub). Posting might fail. Please try \x27auth\x27 again."

/-- Failure message of the `code:` branch. -/
def authFailedMsg : String := "‚ùå Authentication failed. Please ensure you copied the code correctly and try \x27auth\x27 again."

/-- Reply of the `cancel` text command. -/
def cancelledMsg : String := "Operation cancelled. Ready for a new idea!"

/-- Reply of `regenerate` with an empty history. -/
def noContextMsg : String := "There\x27s no previous post context to regenerate. Please send an idea first."

/-- Prompt sent when entering the regeneration state. -/
def regenInstructionMsg : String := "üîÑ To regenerate, please provide specific changes or type \x27simple\x27 for a new take on the last idea."

/-- Prompt of the `edit` command showing the current draft. -/
def currentPostMsg (p : String) : String :=
  "Current post:\n\n" ++ p ++ "\n\nPlease send your complete edited version of the post:"

/-- Reply of the `edit` text command with no pending draft. -/
def noPendingEditMsg : String := "No pending post found to edit. Send an idea first!"

/-- Reply of the edit button with no pending draft. -/
def noPendingEditBtnMsg : String := "No pending post found to edit."

/-- Progress message before generation (default branch). -/
def generatingMsg : String := "üîÑ Generating your LinkedIn post... This might take a moment."

/-- Progress message before regeneration. -/
def regeneratingMsg : String := "üîÑ Regenerating your LinkedIn post with new considerations..."

/-- User turn appended in the regeneration-capture branch. -/
def regenConsiderMsg (body : String) : String :=
  "Please regenerate based on the previous idea, but with these considerations: " ++ body

/-- Apology when the Anthropic client is not configured. -/
def genUnavailableMsg : String := "Sorry, the post generation service is currently unavailable (Anthropic API key missing)."

/-- Reply of `generate_post` with an empty conversation. -/
def noTopicMsg : String := "Please provide a topic or idea for your LinkedIn post first."

/-- Apology when `client.messages.create` raises. -/
def genErrorMsg : String := "Sorry, I encountered an error while generating your post. Please try again."

/-- Message presenting a freshly generated post. -/
def generatedPostMsg (resp : String) : String :=
  "üìù Here\x27s your LinkedIn post (Character count: " ++ toString resp.length ++ "/3,000):\n\n" ++ resp

/-- Message presenting an edited post (edit-capture branch). -/
def editedPostMsg (t : String) : String :=
  "üìù EDITED LinkedIn post (Character count: " ++ toString t.length ++ "/3,000):\n\n" ++ t

/-- Progress message of the approve button. -/
def postingMsg (d : String) : String :=
  "üöÄ Posting to LinkedIn...\n\n\x27" ++ pyTake 100 d ++ "...\x27"

/-- Success message of the approve button. -/
def publishSuccessMsg (m d : String) : String :=
  "‚úÖ Your post has been successfully published!\n" ++ m ++ "\n\n---\n\x27" ++ pyTake 100 d ++ "...\x27"

/-- Failure message of the approve button (carries the full draft). -/
def publishFailMsg (m d : String) : String :=
  "‚ùå Direct posting failed.\nReason: " ++ m ++ "\n\nYou can copy and paste this to post manually:\n\n" ++ d

/-- Reply of the approve button with no pending draft. -/
def noPendingApproveMsg : String := "No pending post found to approve."

/-- Reply of the cancel button. -/
def cancelBtnMsg : String := "Post creation cancelled. Ready for a new idea!"

/-- Message of `post_to_linkedin` when the identity has no token entry. -/
def needAuthMsg : String := "You need to authenticate with LinkedIn first. Send \x27auth\x27 to begin."

/-- Message of `post_to_linkedin` when the stored access token is falsy. -/
def noTokenMsg : String := "Authentication token not found. Please send \x27auth\x27 to reconnect."

/-- Message of `post_to_linkedin` when the stored sub is falsy. -/
def noSubMsg : String := "LinkedIn User ID (sub) not found. Please try reconnecting by sending \x27auth\x27."

/-- Message of `post_to_linkedin` when the token is expired. -/
def expiredMsg : String := "Your LinkedIn token has expired. Please send \x27auth\x27 to reconnect."

/-- Message of `post_to_linkedin` when the ugcPosts request raises; the
interpolated Python exception text is abstracted to a fixed marker. -/
def postExceptionMsg : String := "An exception occurred while posting: <exception>"

/-- Error message of `post_to_linkedin` for a non-201 status. -/
def linkedinApiErrorMsg (status : Nat) (body : String) : String :=
  "Error posting to LinkedIn (Status " ++ toString status ++ "). Details: " ++ pyTake 200 body

/-- post_to_linkedin from main.py: local token checks (presence, falsiness of
the fields, expiry against `time.time()`) and then the ugcPosts request, whose
status and body come from the oracles.  Returns the `(bool, message)` pair of
the source plus the outbound-call trace. -/
def post_to_linkedin (o : Oracles) (tok : Option TokenData) (content : String) :
    Bool × String × List Effect :=
  match tok with
  | none => (false, needAuthMsg, [])
  | some td =>
    if td.access_token = "" then (false, noTokenMsg, [])
    else if td.linkedin_id_sub = "" then (false, noSubMsg, [])
    else if td.expires_at < o.now then (false, expiredMsg, [])
    else
      match o.publishNet with
      | some status =>
        if status = 201 then
          (true, "Post successfully created on LinkedIn!", [Effect.callPublish content])
        else
          (false, linkedinApiErrorMsg status o.publishBody, [Effect.callPublish content])
      | none => (false, postExceptionMsg, [Effect.callPublish content])

/-- generate_post from main.py: guard for the Anthropic client, guard for an
empty conversation, then the `messages.create` call; on success the assistant
turn is appended, the draft stored, the post sent, and the four action buttons
dispatched as a 3-button message plus (because `len(buttons) > 3`) a 1-button
message. -/
def generate_post (o : Oracles) (s : SState) : SState × List Effect :=
  if o.clientOk = false then
    (s, [Effect.sendText genUnavailableMsg])
  else if s.user_conversation = [] then
    (s, [Effect.sendText noTopicMsg])
  else
    match o.gen with
    | none => (s, [Effect.callGenerate s.user_conversation, Effect.sendText genErrorMsg])
    | some resp =>
      ({ s with
          user_conversation := s.user_conversation ++ [ChatMsg.mk "assistant" resp],
          pending_post := some resp },
        [Effect.callGenerate s.user_conversation,
         Effect.sendText (generatedPostMsg resp),
         Effect.sendButtons "What would you like to do?" (postButtons.take 3)] ++
        (if 3 < postButtons.length then
          [Effect.sendButtons "More options:" [postButtons.getD 3 cancelBtn2]]
         else []))

/-- handle_message from main.py: the two state-capture branches (the edit one
also requires a pending draft), then the command chain on the lowered and
stripped text, then the default generate branch. -/
def handle_message (o : Oracles) (phone : String) (s : SState) (message_text : String) :
    SState × List Effect :=
  let lower_text := pyStrip (pyLower message_text)
  if s.user_state = some "awaiting_edit" ∧ s.pending_post.isSome = true then
    ({ s with pending_post := some message_text, user_state := none },
     [Effect.sendButtons (editedPostMsg message_text) [approveBtn, cancelBtn]])
  else if s.user_state = some "awaiting_regeneration_prompt" then
    let s1 := { s with
      user_conversation := s.user_conversation ++ [ChatMsg.mk "user" (regenConsiderMsg message_text)],
      user_state := none }
    let g := generate_post o s1
    (g.1, Effect.sendText regeneratingMsg :: g.2)
  else if lower_text = "start" ∨ lower_text = "help" then
    (s, [Effect.sendText welcomeMsg])
  else if lower_text = "auth" then
    if o.linkedin_client_id.getD "" = "" then
      (s, [Effect.sendText linkedinNotConfiguredMsg])
    else
      let r := get_oauth_url (o.linkedin_client_id.getD "") phone o.state_hash s.oauth_states
      ({ s with oauth_states := r.1 }, [Effect.sendText (authLinkMsg r.2)])
  else if pyStartsWith lower_text "code:" = true then
    let code := pyStrip (pyReplace lower_text "code:" "")
    if code = "" then
      (s, [Effect.sendText missingCodeMsg])
    else
      match o.exchange with
      | some td =>
        match td.access_token with
        | some tok =>
          match o.userid with
          | some sub =>
            ({ s with user_token := some (TokenData.mk tok (o.now + td.expires_in.getD 3600) sub) },
             [Effect.sendText authenticatingMsg, Effect.callExchange code,
              Effect.sendText connectedMsg])
          | none =>
            (s, [Effect.sendText authenticatingMsg, Effect.callExchange code,
                 Effect.sendText partialAuthMsg])
        | none =>
          (s, [Effect.sendText authenticatingMsg, Effect.callExchange code,
               Effect.sendText authFailedMsg])
      | none =>
        (s, [Effect.sendText authenticatingMsg, Effect.callExchange code,
             Effect.sendText authFailedMsg])
  else if lower_text = "cancel" then
    ({ s with pending_post := none, user_state := none }, [Effect.sendText cancelledMsg])
  else if lower_text = "regenerate" then
    if s.user_conversation = [] then
      (s, [Effect.sendText noContextMsg])
    else
      let hist :=
        if (s.user_conversation.getLast?).map ChatMsg.role = some "assistant" then
          s.user_conversation.dropLast
        else s.user_conversation
      ({ s with user_conversation := hist, user_state := some "awaiting_regeneration_prompt" },
       [Effect.sendText regenInstructionMsg])
  else if lower_text = "edit" then
    match s.pending_post with
    | some p =>
      ({ s with user_state := some "awaiting_edit" }, [Effect.sendText (currentPostMsg p)])
    | none => (s, [Effect.sendText noPendingEditMsg])
  else
    let s1 := { s with user_conversation := s.user_conversation ++ [ChatMsg.mk "user" message_text] }
    let g := generate_post o s1
    (g.1, Effect.sendText generatingMsg :: g.2)

/-- handle_button_click from main.py: approve (publish flow), regenerate_btn,
edit_btn, cancel_btn; any other id falls through with no branch taken. -/
def handle_button_click (o : Oracles) (s : SState) (button_id : String) :
    SState × List Effect :=
  if button_id = "approve" then
    match s.pending_post with
    | some post_content =>
      let r := post_to_linkedin o s.user_token post_content
      if r.1 then
        ({ s with pending_post := none },
         Effect.sendText (postingMsg post_content) :: r.2.2 ++
           [Effect.sendText (publishSuccessMsg r.2.1 post_content)])
      else
        (s, Effect.sendText (postingMsg post_content) :: r.2.2 ++
           [Effect.sendText (publishFailMsg r.2.1 post_content)])
    | none => (s, [Effect.sendText noPendingApproveMsg])
  else if button_id = "regenerate_btn" then
    if s.user_conversation = [] then
      (s, [Effect.sendText noContextMsg])
    else
      let hist :=
        if (s.user_conversation.getLast?).map ChatMsg.role = some "assistant" then
          s.user_conversation.dropLast
        else s.user_conversation
      ({ s with user_conversation := hist, user_state := some "awaiting_regeneration_prompt" },
       [Effect.sendText regenInstructionMsg])
  else if button_id = "edit_btn" then
    match s.pending_post with
    | some p =>
      ({ s with user_state := some "awaiting_edit" }, [Effect.sendText (currentPostMsg p)])
    | none => (s, [Effect.sendText noPendingEditBtnMsg])
  else if button_id = "cancel_btn" then
    ({ s with pending_post := none, user_state := none }, [Effect.sendText cancelBtnMsg])
  else
    (s, [])

/-- Inbound events as dispatched by the webhook route: a text message goes to
`handle_message`, a button reply to `handle_button_click`. -/
inductive Event where
  | text (body : String)
  | button (id : String)
deriving DecidableEq, Repr

/-- One webhook dispatch step. -/
def step (o : Oracles) (phone : String) (s : SState) (e : Event) : SState × List Effect :=
  match e with
  | Event.text b => handle_message o phone s b
  | Event.button i => handle_button_click o s i

/-- Run a sequence of events, each with its own collaborator outcomes. -/
def runEvents (phone : String) (evs : List (Oracles × Event)) (s : SState) : SState :=
  match evs with
  | [] => s
  | oe :: rest => runEvents phone rest (step oe.1 phone s oe.2).1

/-- Lazily created session: empty history, no draft, no token, state None. -/
def initialState : SState :=
  SState.mk [] none none none []

/-- A generic assignment of collaborator outcomes. -/
def defaultOracles : Oracles :=
  Oracles.mk true (some "POST") none none 0 (some 201) "" "statehash" (some "cid")

/-- The session phase is one of the three values the spec defines (the string
states the code writes into `user_states`, plus None for Idle). -/
def phaseOK (s : SState) : Prop :=
  s.user_state = none ∨ s.user_state = some "awaiting_edit" ∨
    s.user_state = some "awaiting_regeneration_prompt"

/-- Session of the C2 counterexample: phase AwaitingEdit, no pending draft
(reachable, e.g. edit button then a successful approve). -/
def sAwaitEditNoDraft : SState :=
  { initialState with user_state := some "awaiting_edit" }

/-- Session of the C2 witness: phase AwaitingEdit with a pending draft. -/
def sAwaitEditDraft : SState :=
  { initialState with user_state := some "awaiting_edit", pending_post := some "old" }

/-- Session used by the C1 theorem: one issued, unconsumed handshake entry. -/
def stHandshake : SState :=
  { initialState with oauth_states := [("tok1", "15551234")] }

/-- Oracles with a failing Generate call. -/
def genFailOracles : Oracles := { defaultOracles with gen := none }

/-- Session with one user turn in the history. -/
def sOneTurn : SState := { initialState with user_conversation := [ChatMsg.mk "user" "hi"] }

/-- Five distinct options, more than the provider maximum of three. -/
def opts5 : List WButton :=
  [WButton.mk "o1" "O1", WButton.mk "o2" "O2", WButton.mk "o3" "O3",
   WButton.mk "o4" "O4", WButton.mk "o5" "O5"]

/-- Session whose approve will publish successfully: a pending draft, a valid
unexpired token, and the session sitting in phase AwaitingEdit. -/
def sApproveReady : SState :=
  { initialState with
    pending_post := some "X"
    user_token := some (TokenData.mk "tk" 100 "sub")
    user_state := some "awaiting_edit" }

/-- Session whose approve will fail: a pending draft but no token entry. -/
def sApproveFail : SState := { initialState with pending_post := some "X" }

/-- Session ready for regenerate: history ending in an assistant turn. -/
def sRegenReady : SState :=
  { initialState with
    user_conversation := [ChatMsg.mk "user" "hi", ChatMsg.mk "assistant" "draft"] }

/-- Behaviour required of the regenerate transition, shared by the text
command and the button (the code duplicates the logic verbatim): empty history
is an error with no mutation; a history ending in an Assistant turn loses
exactly that turn and the phase moves to the regeneration prompt; a history
ending in any other turn is unchanged while the phase still moves. -/
def regenSpec (s : SState) (r : SState × List Effect) : Prop :=
  (s.user_conversation = [] → r = (s, [Effect.sendText noContextMsg]))
  ∧ (∀ ms m, s.user_conversation = ms ++ [m] →
      (m.role = "assistant" →
        r = ({ s with
                 user_conversation := ms
                 user_state := some "awaiting_regeneration_prompt" },
             [Effect.sendText regenInstructionMsg]))
      ∧ (m.role ≠ "assistant" →
        r = ({ s with user_state := some "awaiting_regeneration_prompt" },
             [Effect.sendText regenInstructionMsg])))

theorem approve_no_pending (o : Oracles) (s : SState) (h : s.pending_post = none) :
    handle_button_click o s "approve" = (s, [Effect.sendText noPendingApproveMsg]) := by
  simp [handle_button_click, h]

theorem generate_post_user_state (o : Oracles) (s : SState) :
    (generate_post o s).1.user_state = s.user_state := by
  unfold generate_post
  split
  · rfl
  · split
    · rfl
    · split <;> rfl

/-- C1: the spec requires `stateToken` consumption to be single-use, with
unknown or replayed tokens rejected; the code never consults or deletes
`oauth_states` in the callback (the validation block is commented out): a
redirect with an unknown token is served the success page, and a redirect
with the stored token leaves the mapping intact, so a replay succeeds too. -/
theorem c1_callback_ignores_state :
    (oauth_callback (some "abc") none (some "unknowntok") stHandshake).1 = stHandshake
  ∧ (oauth_callback (some "abc") none (some "unknowntok") stHandshake).2 = CallbackPage.success "abc"
  ∧ (oauth_callback (some "abc") none (some "tok1") stHandshake).1.oauth_states = [("tok1", "15551234")]
  ∧ (oauth_callback (some "abc") none (some "tok1") stHandshake).2 = CallbackPage.success "abc" := by
  exact ⟨rfl, rfl, rfl, rfl⟩

/-- C2 counterexample: a session in phase AwaitingEdit whose pendingDraft is
absent does NOT capture the body "auth" as a draft — the text is parsed as the
auth command (a handshake entry is created), pendingDraft stays absent and the
phase does not return to Idle. -/
theorem c2_capture_counterexample :
    (handle_message defaultOracles "15551234" sAwaitEditNoDraft "auth").1.pending_post ≠ some "auth"
  ∧ (handle_message defaultOracles "15551234" sAwaitEditNoDraft "auth").1.pending_post = none
  ∧ (handle_message defaultOracles "15551234" sAwaitEditNoDraft "auth").1.user_state = some "awaiting_edit"
  ∧ (handle_message defaultOracles "15551234" sAwaitEditNoDraft "auth").1.oauth_states
      = [("statehash", "15551234")] := by
  refine ⟨by decide, by decide, by decide, by decide⟩

/-- C2 amended: for every session in phase AwaitingEdit THAT STILL HAS a
pendingDraft, every incoming text — command words included — is captured
before command parsing: pendingDraft becomes the body verbatim, the phase
returns to Idle, and one notification presents the edited draft with the
choice approve/cancel. -/
theorem c2_capture_before_commands (o : Oracles) (phone : String) (s : SState) (body : String)
    (h1 : s.user_state = some "awaiting_edit") (h2 : s.pending_post.isSome = true) :
    handle_message o phone s body =
      ({ s with pending_post := some body, user_state := none },
       [Effect.sendButtons (editedPostMsg body) [approveBtn, cancelBtn]]) := by
  simp [handle_message, h1, h2]

theorem c2_capture_witness :
    handle_message defaultOracles "p" sAwaitEditDraft "auth" =
      ({ sAwaitEditDraft with pending_post := some "auth", user_state := none },
       [Effect.sendButtons (editedPostMsg "auth") [approveBtn, cancelBtn]]) :=
  c2_capture_before_commands defaultOracles "p" sAwaitEditDraft "auth" rfl rfl

/-- C3 counterexample: a fresh Idle session receiving TextMessage "hello" with
a failing Generate call does NOT end with its pre-event state — the User turn
appended before the Generate call survives the failure, so conversationHistory
differs from its pre-event value (retrying would duplicate the turn). -/
theorem c3_generate_failure_counterexample :
    (handle_message genFailOracles "p" initialState "hello").1.user_conversation
        ≠ initialState.user_conversation
  ∧ (handle_message genFailOracles "p" initialState "hello").1.user_conversation
        = [ChatMsg.mk "user" "hello"]
  ∧ (handle_message genFailOracles "p" initialState "hello").2
        = [Effect.sendText generatingMsg,
           Effect.callGenerate [ChatMsg.mk "user" "hello"],
           Effect.sendText genErrorMsg] := by
  refine ⟨by decide, by decide, by decide⟩

/-- C3 amended: when the Generate call fails, the failure handling emits
exactly one apology notification, `generate_post` itself performs no session
mutation, and pendingDraft and authorization are unchanged; the phase is
whatever it was when Generate was invoked — the regeneration-capture path has
already returned it to Idle, and the default path leaves it untouched (Idle
in the ordinary case, while the reachable AwaitingEdit-without-draft session
stays in AwaitingEdit).  conversationHistory is NOT restored: it keeps the
User turn the event appended before invoking Generate — it equals the
pre-event history extended by exactly that turn — so retrying the same
command appends the turn again. -/
theorem c3_generate_failure_isolated (o : Oracles) (phone : String) (s : SState)
    (body : String) (hc : o.clientOk = true) (hg : o.gen = none) :
    (generate_post o { s with user_conversation := s.user_conversation ++ [ChatMsg.mk "user" body] }
       = ({ s with user_conversation := s.user_conversation ++ [ChatMsg.mk "user" body] },
          [Effect.callGenerate (s.user_conversation ++ [ChatMsg.mk "user" body]),
           Effect.sendText genErrorMsg]))
  ∧ (s.user_state = some "awaiting_regeneration_prompt" →
       handle_message o phone s body =
         ({ s with
             user_conversation := s.user_conversation ++ [ChatMsg.mk "user" (regenConsiderMsg body)],
             user_state := none },
          [Effect.sendText regeneratingMsg,
           Effect.callGenerate (s.user_conversation ++ [ChatMsg.mk "user" (regenConsiderMsg body)]),
           Effect.sendText genErrorMsg]))
  ∧ (¬(s.user_state = some "awaiting_edit" ∧ s.pending_post.isSome = true) →
     ¬s.user_state = some "awaiting_regeneration_prompt" →
     pyStrip (pyLower body) ≠ "start" → pyStrip (pyLower body) ≠ "help" →
     pyStrip (pyLower body) ≠ "auth" →
     pyStartsWith (pyStrip (pyLower body)) "code:" = false →
     pyStrip (pyLower body) ≠ "cancel" → pyStrip (pyLower body) ≠ "regenerate" →
     pyStrip (pyLower body) ≠ "edit" →
       handle_message o phone s body =
         ({ s with user_conversation := s.user_conversation ++ [ChatMsg.mk "user" body] },
          [Effect.sendText generatingMsg,
           Effect.callGenerate (s.user_conversation ++ [ChatMsg.mk "user" body]),
           Effect.sendText genErrorMsg])) := by
  refine ⟨?_, ?_, ?_⟩
  · simp [generate_post, hc, hg]
  · intro h
    simp [handle_message, h, generate_post, hc, hg]
  · intro hcap hreg h1 h2 h3 h4 h5 h6 h7
    simp [handle_message, hcap, hreg, h1, h2, h3, h4, h5, h6, h7, generate_post, hc, hg]

theorem c3_generate_failure_witness :
    (handle_message genFailOracles "p" initialState "hello" =
      ({ initialState with user_conversation := [ChatMsg.mk "user" "hello"] },
       [Effect.sendText generatingMsg,
        Effect.callGenerate [ChatMsg.mk "user" "hello"],
        Effect.sendText genErrorMsg]))
  ∧ (handle_message genFailOracles "p" sAwaitEditNoDraft "hello" =
      ({ sAwaitEditNoDraft with user_conversation := [ChatMsg.mk "user" "hello"] },
       [Effect.sendText generatingMsg,
        Effect.callGenerate [ChatMsg.mk "user" "hello"],
        Effect.sendText genErrorMsg]))
  ∧ (handle_message genFailOracles "p" sAwaitEditNoDraft "hello").1.user_state
      = some "awaiting_edit" := by
  have h := (c3_generate_failure_isolated genFailOracles "p" initialState "hello" rfl rfl).2.2
    (by decide) (by decide) (by decide) (by decide) (by decide) (by decide) (by decide)
    (by decide) (by decide)
  have h2 := (c3_generate_failure_isolated genFailOracles "p" sAwaitEditNoDraft "hello" rfl rfl).2.2
    (by decide) (by decide) (by decide) (by decide) (by decide) (by decide) (by decide)
    (by decide) (by decide)
  refine ⟨by simpa using h, by simpa using h2, ?_⟩
  rw [h2]
  rfl

/-- C4 counterexample: `send_whatsapp_interactive_buttons` performs no
splitting — a 5-option list (5 > max = 3) is dispatched as ONE provider call
carrying all five options, not ceil(5/3) = 2 calls. -/
theorem c4_no_split_counterexample :
    providerMaxButtons < opts5.length
  ∧ (send_whatsapp_interactive_buttons "What would you like to do?" opts5).length = 1
  ∧ (opts5.length + providerMaxButtons - 1) / providerMaxButtons = 2
  ∧ (1 : Nat) ≠ 2
  ∧ ((send_whatsapp_interactive_buttons "What would you like to do?" opts5).getD 0
        (InteractiveCall.mk "" [])).buttons.length = 5 := by
  refine ⟨by decide, by decide, by decide, by decide, by decide⟩

/-- C4 amended: the provider-call function never splits; the one oversized
option list in the program — the four post-action buttons dispatched in
`generate_post` against the provider maximum of three — is split by its caller
into exactly ceil(4/3) = 2 successive calls, the first carrying the first
three options and the second the fourth, whose concatenation is the original
list in order, with no duplication or omission. -/
theorem c4_generate_post_split (o : Oracles) (s : SState) (resp : String)
    (hc : o.clientOk = true) (hg : o.gen = some resp) (hconv : ¬s.user_conversation = []) :
    buttonLists (generate_post o s).2 = [postButtons.take 3, [postButtons.getD 3 cancelBtn2]]
  ∧ (buttonLists (generate_post o s).2).flatten = postButtons
  ∧ (buttonLists (generate_post o s).2).length
      = (postButtons.length + providerMaxButtons - 1) / providerMaxButtons
  ∧ (providerCalls (generate_post o s).2).map InteractiveCall.buttons
      = [(postButtons.take 3).map (fun b => ButtonObject.mk "reply" b),
         [ButtonObject.mk "reply" (postButtons.getD 3 cancelBtn2)]] := by
  refine ⟨?_, ?_, ?_, ?_⟩ <;>
    simp [generate_post, hc, hg, hconv, buttonLists, providerCalls,
      send_whatsapp_interactive_buttons, postButtons, providerMaxButtons]

theorem c4_generate_post_split_witness :
    buttonLists (generate_post defaultOracles sOneTurn).2
        = [postButtons.take 3, [postButtons.getD 3 cancelBtn2]]
  ∧ (buttonLists (generate_post defaultOracles sOneTurn).2).flatten = postButtons := by
  have h := c4_generate_post_split defaultOracles sOneTurn "POST" rfl rfl (by decide)
  exact ⟨h.1, h.2.1⟩

/-- C6: approving with no pendingDraft leaves the whole session unchanged and
emits exactly one "nothing to approve" notification. -/
theorem c6_approve_no_draft (o : Oracles) (s : SState) (h : s.pending_post = none) :
    handle_button_click o s "approve" = (s, [Effect.sendText noPendingApproveMsg]) :=
  approve_no_pending o s h

theorem c6_approve_no_draft_witness :
    handle_button_click defaultOracles initialState "approve" =
      (initialState, [Effect.sendText noPendingApproveMsg]) :=
  c6_approve_no_draft defaultOracles initialState rfl

theorem post_to_linkedin_success_effects (o : Oracles) (tok : Option TokenData)
    (content : String) (h : (post_to_linkedin o tok content).1 = true) :
    (post_to_linkedin o tok content).2.2 = [Effect.callPublish content] := by
  rcases tok with _ | td
  · simp [post_to_linkedin] at h
  · unfold post_to_linkedin at h ⊢
    repeat' split
    all_goals simp_all

/-- C5: in phase Idle, TextMessage "regenerate" and ButtonClick regenerate
behave identically: an empty history yields one error notification and no
mutation; a history ending in an Assistant turn loses exactly that turn (all
earlier turns unchanged) and the phase becomes AwaitingRegenerationPrompt; a
history whose last turn is not Assistant is left unchanged. -/
theorem c5_regenerate (o : Oracles) (phone : String) (s : SState)
    (hIdle : s.user_state = none) :
    regenSpec s (handle_message o phone s "regenerate")
  ∧ regenSpec s (handle_button_click o s "regenerate_btn") := by
  have e1 : pyStrip (pyLower "regenerate") = "regenerate" := by decide
  have e2 : pyStartsWith "regenerate" "code:" = false := by decide
  constructor
  · refine ⟨fun h => by simp [handle_message, hIdle, e1, e2, h], ?_⟩
    intro ms m hm
    constructor
    · intro hr
      simp [handle_message, hIdle, e1, e2, hm, hr,
        List.getLast?_concat, List.dropLast_concat]
    · intro hr
      simp [handle_message, hIdle, e1, e2, hm, hr,
        List.getLast?_concat, List.dropLast_concat]
  · refine ⟨fun h => by simp [handle_button_click, h], ?_⟩
    intro ms m hm
    constructor
    · intro hr
      simp [handle_button_click, hm, hr, List.getLast?_concat, List.dropLast_concat]
    · intro hr
      simp [handle_button_click, hm, hr, List.getLast?_concat, List.dropLast_concat]

theorem c5_regenerate_witness :
    handle_message defaultOracles "p" sRegenReady "regenerate"
      = ({ sRegenReady with
           user_conversation := [ChatMsg.mk "user" "hi"]
           user_state := some "awaiting_regeneration_prompt" },
         [Effect.sendText regenInstructionMsg]) :=
  ((c5_regenerate defaultOracles "p" sRegenReady rfl).1.2
      [ChatMsg.mk "user" "hi"] (ChatMsg.mk "assistant" "draft") rfl).1 rfl

/-- C7: approving with a pendingDraft: if the publish succeeds, the draft is
deleted (only that field changes), the trace is the progress message, the
publish call carrying the draft, and the success notification, and a
subsequent approve behaves exactly as the no-draft case under any collaborator
outcomes; if the publish fails, the session is entirely unchanged (draft
retained) and the failure notification carries the full draft text. -/
theorem c7_approve_publish (o : Oracles) (s : SState) (d : String)
    (hd : s.pending_post = some d) :
    ((post_to_linkedin o s.user_token d).1 = true →
       (handle_button_click o s "approve").1 = { s with pending_post := none }
     ∧ (handle_button_click o s "approve").2
         = [Effect.sendText (postingMsg d), Effect.callPublish d,
            Effect.sendText (publishSuccessMsg (post_to_linkedin o s.user_token d).2.1 d)]
     ∧ ∀ o2, handle_button_click o2 (handle_button_click o s "approve").1 "approve"
         = ((handle_button_click o s "approve").1, [Effect.sendText noPendingApproveMsg]))
  ∧ ((post_to_linkedin o s.user_token d).1 = false →
       (handle_button_click o s "approve").1 = s
     ∧ (handle_button_click o s "approve").2
         = Effect.sendText (postingMsg d) :: (post_to_linkedin o s.user_token d).2.2
             ++ [Effect.sendText (publishFailMsg (post_to_linkedin o s.user_token d).2.1 d)]
     ∧ ∃ pre, publishFailMsg (post_to_linkedin o s.user_token d).2.1 d = pre ++ d) := by
  constructor
  · intro hs
    have heff := post_to_linkedin_success_effects o s.user_token d hs
    have h1 : (handle_button_click o s "approve").1 = { s with pending_post := none } := by
      simp [handle_button_click, hd, hs]
    refine ⟨h1, ?_, ?_⟩
    · simp [handle_button_click, hd, hs, heff]
    · intro o2
      rw [h1]
      exact approve_no_pending o2 { s with pending_post := none } rfl
  · intro hs
    refine ⟨?_, ?_, ?_⟩
    · simp [handle_button_click, hd, hs]
    · simp [handle_button_click, hd, hs]
    · exact ⟨_, rfl⟩

theorem c7_approve_publish_witness :
    (handle_button_click defaultOracles sApproveReady "approve").1
        = { sApproveReady with pending_post := none }
  ∧ handle_button_click defaultOracles
        (handle_button_click defaultOracles sApproveReady "approve").1 "approve"
      = ((handle_button_click defaultOracles sApproveReady "approve").1,
         [Effect.sendText noPendingApproveMsg])
  ∧ (handle_button_click defaultOracles sApproveFail "approve").1 = sApproveFail
  ∧ ∃ pre, publishFailMsg (post_to_linkedin defaultOracles sApproveFail.user_token "X").2.1 "X"
        = pre ++ "X" := by
  have hs := (c7_approve_publish defaultOracles sApproveReady "X" rfl).1 (by decide)
  have hf := (c7_approve_publish defaultOracles sApproveFail "X" rfl).2 (by decide)
  exact ⟨hs.1, hs.2.2 defaultOracles, hf.1, hf.2.2⟩

theorem handle_message_phase (o : Oracles) (phone : String) (s : SState) (b : String) :
    (handle_message o phone s b).1.user_state = s.user_state
  ∨ (handle_message o phone s b).1.user_state = none
  ∨ (handle_message o phone s b).1.user_state = some "awaiting_edit"
  ∨ (handle_message o phone s b).1.user_state = some "awaiting_regeneration_prompt" := by
  simp only [handle_message]
  repeat' split
  all_goals simp [generate_post_user_state]

theorem handle_button_click_phase (o : Oracles) (s : SState) (i : String) :
    (handle_button_click o s i).1.user_state = s.user_state
  ∨ (handle_button_click o s i).1.user_state = none
  ∨ (handle_button_click o s i).1.user_state = some "awaiting_edit"
  ∨ (handle_button_click o s i).1.user_state = some "awaiting_regeneration_prompt" := by
  simp only [handle_button_click]
  repeat' split
  all_goals simp

theorem step_phaseOK (o : Oracles) (phone : String) (s : SState) (e : Event)
    (h : phaseOK s) : phaseOK (step o phone s e).1 := by
  cases e with
  | text b =>
    have hp := handle_message_phase o phone s b
    show phaseOK (handle_message o phone s b).1
    unfold phaseOK at h ⊢
    rcases hp with h1 | h1 | h1 | h1 <;> rw [h1] <;> tauto
  | button i =>
    have hp := handle_button_click_phase o s i
    show phaseOK (handle_button_click o s i).1
    unfold phaseOK at h ⊢
    rcases hp with h1 | h1 | h1 | h1 <;> rw [h1] <;> tauto

/-- C8: across any sequence of processed events, under any collaborator
outcomes, the phase stays one of the three defined values — no handler ever
writes any other value into `user_states`. -/
theorem c8_phase_invariant (phone : String) (evs : List (Oracles × Event)) (s : SState)
    (h : phaseOK s) : phaseOK (runEvents phone evs s) := by
  induction evs generalizing s with
  | nil => exact h
  | cons oe rest ih => exact ih _ (step_phaseOK oe.1 phone s oe.2 h)

theorem c8_phase_invariant_witness :
    phaseOK (runEvents "p"
      [(defaultOracles, Event.text "hello"), (defaultOracles, Event.button "approve")]
      initialState) :=
  c8_phase_invariant "p" _ initialState (Or.inl rfl)

/-- C9: for an Idle session, a text whose lowered and stripped form starts
with "code:" forwards to the token exchange exactly the lowered, stripped
text with every occurrence of "code:" removed and surrounding whitespace
stripped — so a code with uppercase letters or containing "code:" is altered
before the exchange. -/
theorem c9_code_extraction (o : Oracles) (phone : String) (s : SState) (msg : String)
    (hIdle : s.user_state = none)
    (hpre : pyStartsWith (pyStrip (pyLower msg)) "code:" = true)
    (hne : ¬pyStrip (pyReplace (pyStrip (pyLower msg)) "code:" "") = "") :
    (handle_message o phone s msg).2.get? 1
      = some (Effect.callExchange (pyStrip (pyReplace (pyStrip (pyLower msg)) "code:" ""))) := by
  have h1 : ¬pyStrip (pyLower msg) = "start" := fun e => by
    rw [e] at hpre; exact absurd hpre (by decide)
  have h2 : ¬pyStrip (pyLower msg) = "help" := fun e => by
    rw [e] at hpre; exact absurd hpre (by decide)
  have h3 : ¬pyStrip (pyLower msg) = "auth" := fun e => by
    rw [e] at hpre; exact absurd hpre (by decide)
  simp only [handle_message, hIdle, hpre, h1, h2, h3, hne]
  rcases o.exchange with _ | td
  · simp
  · rcases td with ⟨at1, ei⟩
    rcases at1 with _ | tok
    · simp
    · rcases o.userid with _ | sub <;> simp

theorem c9_code_extraction_witness :
    (handle_message defaultOracles "p" initialState "  Code:AbC ").2.get? 1
      = some (Effect.callExchange "abc")
  ∧ "abc" ≠ "AbC" := by
  have h := c9_code_extraction defaultOracles "p" initialState "  Code:AbC "
    rfl (by decide) (by decide)
  refine ⟨?_, by decide⟩
  rw [h]
  decide

/-- C10: ButtonClick approve never touches the phase — whatever phase the
session was in (AwaitingEdit included) it stays in, and when the publish
succeeds only pendingDraft is deleted. -/
theorem c10_approve_keeps_phase (o : Oracles) (s : SState) :
    (handle_button_click o s "approve").1.user_state = s.user_state
  ∧ (∀ d, s.pending_post = some d → (post_to_linkedin o s.user_token d).1 = true →
      (handle_button_click o s "approve").1 = { s with pending_post := none }) := by
  constructor
  · rcases hp : s.pending_post with _ | d
    · simp [handle_button_click, hp]
    · simp only [handle_button_click, hp]
      repeat' split
      all_goals simp_all
  · intro d hd hs
    simp [handle_button_click, hd, hs]

theorem c10_approve_keeps_phase_witness :
    (handle_button_click defaultOracles sApproveReady "approve").1.user_state
        = some "awaiting_edit"
  ∧ (handle_button_click defaultOracles sApproveReady "approve").1.pending_post = none := by
  have h := c10_approve_keeps_phase defaultOracles sApproveReady
  refine ⟨h.1, ?_⟩
  rw [h.2 "X" rfl (by decide)]

end LinkedinChat
